import Mathlib

/-!
Shallow embedding of the notifications service (src/notifications/index.js).

The service keeps notification records in a Postgres table (modelled as a
list of records plus the next SERIAL id), and a Redis list used as a work
queue (modelled as a list of ids; the producer pushes with lPush, the
consumer pops with brPop). The dispatcher loop processQueue, the channel
sender sendNotification, the admission handler for POST /notifications and
the list handler for GET /notifications are translated as pure functions.
Fallible infrastructure calls (the INSERT and the queue push) are modelled
by explicit success flags; timestamps are abstract Nat instants.
-/

namespace Notifications

/-- A row of the notifications table, as created by initDb: SERIAL id,
user_id INTEGER NOT NULL, type / channel / message NOT NULL strings,
optional subject, status string defaulting to "pending", created_at,
and a nullable sent_at. -/
structure NotificationRecord where
  id : Nat
  user_id : Int
  type : String
  channel : String
  subject : Option String
  message : String
  status : String
  created_at : Nat
  sent_at : Option Nat
deriving DecidableEq

/-- The notifications table together with the next SERIAL id (Postgres
SERIAL starts at 1). Rows are kept in insertion order. -/
structure Store where
  rows : List NotificationRecord
  nextId : Nat
deriving DecidableEq

/-- The Redis list notification_queue, holding notification ids. The head
of the Lean list is the left end of the Redis list. -/
abbrev Queue := List Nat

/-- redisClient.lPush: push one id onto the left end of the list. -/
def lPush (q : Queue) (id : Nat) : Queue :=
  id :: q

/-- redisClient.brPop with a bounded wait: pop the element at the right
end of the list, or return none (the timeout sentinel) when the list is
empty within the wait. -/
def brPop (q : Queue) : Option Nat × Queue :=
  match q.getLast? with
  | none => (none, q)
  | some id => (some id, q.dropLast)

/-- A producer enqueueing a sequence of ids one after the other, each via
lPush. -/
def enqueueAll (q : Queue) (ids : List Nat) : Queue :=
  ids.foldl lPush q

/-- The SELECT ... WHERE id = $1 lookup used by the dispatcher. -/
def findRecord (s : Store) (id : Nat) : Option NotificationRecord :=
  s.rows.find? (fun r => r.id = id)

/-- The includes check of the admission handler:
["email", "slack", "telegram"].includes(channel). An absent channel is
not in the list. -/
def validChannel (c : Option String) : Bool :=
  match c with
  | none => false
  | some ch => ch = "email" || ch = "slack" || ch = "telegram"

/-- sendNotification: logs a line for the email, slack and telegram
channels and does nothing at all for any other channel. It never throws,
so its outcome is the produced log line, none meaning no channel branch
matched. -/
def sendNotification (notif : NotificationRecord) : Option String :=
  if notif.channel = "email" then
    some ("sending email to user " ++ toString notif.user_id)
  else if notif.channel = "slack" then
    some ("sending slack to user " ++ toString notif.user_id)
  else if notif.channel = "telegram" then
    some ("sending telegram to user " ++ toString notif.user_id)
  else
    none

/-- The UPDATE notifications SET status = sent, sent_at = CURRENT_TIMESTAMP
WHERE id = $1 statement run by the dispatcher after sendNotification. -/
def markSentById (s : Store) (id : Nat) (now : Nat) : Store :=
  { s with
    rows := s.rows.map (fun r =>
      if r.id = id then { r with status := "sent", sent_at := some now } else r) }

/-- The outcome of one iteration of the processQueue loop: the updated
table, the remaining queue, and the records that were passed to
sendNotification during the iteration. -/
structure CycleResult where
  store : Store
  queue : Queue
  senderCalls : List NotificationRecord
deriving DecidableEq

/-- One iteration of the processQueue while-loop: brPop the queue; when an
id arrives, load the record; when a row exists, call sendNotification on
it and then unconditionally mark the row sent. A timeout or a missing row
leaves the table untouched and calls no sender. No branch throws, so the
surrounding try/catch is never entered. -/
def dispatchCycle (s : Store) (q : Queue) (now : Nat) : CycleResult :=
  match brPop q with
  | (none, q1) => { store := s, queue := q1, senderCalls := [] }
  | (some id, q1) =>
    match findRecord s id with
    | none => { store := s, queue := q1, senderCalls := [] }
    | some notif =>
      { store := markSentById s id now, queue := q1, senderCalls := [notif] }

/-- The request body of POST /notifications; a missing field is none. An
integer user_id equal to 0 and an empty string are present but falsy in
the JavaScript sense. -/
structure CreateRequest where
  user_id : Option Int
  type : Option String
  channel : Option String
  subject : Option String
  message : Option String
deriving DecidableEq

/-- JavaScript truthiness of an optional integer field: undefined and 0
are falsy. -/
def truthyInt (v : Option Int) : Bool :=
  match v with
  | none => false
  | some n => n != 0

/-- JavaScript truthiness of an optional string field: undefined and the
empty string are falsy. -/
def truthyStr (v : Option String) : Bool :=
  match v with
  | none => false
  | some str => str != ""

/-- The admission guard !user_id || !type || !channel || !message, stated
positively: every required field is truthy. -/
def requiredPresent (req : CreateRequest) : Bool :=
  truthyInt req.user_id && truthyStr req.type &&
    truthyStr req.channel && truthyStr req.message

/-- The row built by the INSERT of the admission handler: the next SERIAL
id, the request fields, subject || null, status "pending", created_at set
to the current instant and sent_at left NULL. -/
def mkPendingRecord (id : Nat) (req : CreateRequest) (now : Nat) : NotificationRecord :=
  { id := id
    user_id := req.user_id.getD 0
    type := req.type.getD ""
    channel := req.channel.getD ""
    subject := if truthyStr req.subject then req.subject else none
    message := req.message.getD ""
    status := "pending"
    created_at := now
    sent_at := none }

/-- The HTTP response of the admission handler: 200 with the created
record, 400 with an error message, or 500 when an infrastructure call
throws. -/
inductive Response where
  | ok (record : NotificationRecord)
  | badRequest (msg : String)
  | serverError (msg : String)
deriving DecidableEq

/-- The effect of a committed INSERT: the row is appended and the SERIAL
counter advances. -/
def insertRecord (s : Store) (rec : NotificationRecord) : Store :=
  { rows := s.rows ++ [rec], nextId := s.nextId + 1 }

/-- The POST /notifications handler. Guards in source order: the falsy
check on the required fields, then the channel includes check, then the
INSERT (insertOk false models pool.query throwing, caught by the handler
with a 500 and no row written), then the lPush (enqueueOk false models
redis throwing after the row was committed). -/
def postNotification (s : Store) (q : Queue) (req : CreateRequest) (now : Nat)
    (insertOk enqueueOk : Bool) : Store × Queue × Response :=
  if requiredPresent req then
    if validChannel req.channel then
      if insertOk then
        if enqueueOk then
          (insertRecord s (mkPendingRecord s.nextId req now),
            lPush q (mkPendingRecord s.nextId req now).id,
            Response.ok (mkPendingRecord s.nextId req now))
        else
          (insertRecord s (mkPendingRecord s.nextId req now), q,
            Response.serverError "enqueue failed")
      else
        (s, q, Response.serverError "insert failed")
    else
      (s, q, Response.badRequest "invalid channel")
  else
    (s, q, Response.badRequest "missing required fields")

/-- parseInt(req.query.limit) || 100: an absent or unparsable limit, and
the falsy limit 0, fall back to 100; any other parsed value is used
unchanged, with no upper cap. -/
def effectiveLimit (limitParam : Option Nat) : Nat :=
  match limitParam with
  | none => 100
  | some n => if n = 0 then 100 else n

/-- parseInt(req.query.offset) || 0. -/
def effectiveOffset (offsetParam : Option Nat) : Nat :=
  match offsetParam with
  | none => 0
  | some n => n

/-- The GET /notifications handler: optional WHERE user_id = $1, ORDER BY
created_at DESC (rows are stored in insertion order and created_at is
assigned at insertion, so newest first is the reversed row list), then
OFFSET and LIMIT. -/
def listNotifications (s : Store) (userId : Option Int)
    (limitParam offsetParam : Option Nat) : List NotificationRecord :=
  let rows := match userId with
    | none => s.rows
    | some u => s.rows.filter (fun r => r.user_id = u)
  (rows.reverse.drop (effectiveOffset offsetParam)).take (effectiveLimit limitParam)

/-- Modelled from the spec and initDb: the schema constraint on the
user_id column is INTEGER NOT NULL, so every actual integer, 0 included,
is acceptable to the store; only an absent value is rejected. -/
def schemaAcceptsUserId (v : Option Int) : Bool :=
  v.isSome

/-- The well-formedness invariant of the SERIAL id counter: every issued
id is below the next one. -/
def StoreWF (s : Store) : Prop :=
  ∀ r ∈ s.rows, r.id < s.nextId

/-- The states reachable through the public operations: the empty freshly
created table with an empty queue, admission calls, and dispatcher
iterations. -/
inductive Reachable : Store → Queue → Prop where
  | init : Reachable { rows := [], nextId := 1 } []
  | post (req : CreateRequest) (now : Nat) (iOk eOk : Bool) {s : Store} {q : Queue} :
      Reachable s q →
      Reachable (postNotification s q req now iOk eOk).1
        (postNotification s q req now iOk eOk).2.1
  | dispatch (now : Nat) {s : Store} {q : Queue} :
      Reachable s q →
      Reachable (dispatchCycle s q now).store (dispatchCycle s q now).queue

/-- The record-level invariant of claim C8: sent_at is set exactly when
status is "sent". -/
def SentAtInv (s : Store) : Prop :=
  ∀ r ∈ s.rows, (r.sent_at ≠ none ↔ r.status = "sent")

/-- A record that already reached status "sent" at instant 10. -/
def exSentRecord : NotificationRecord :=
  { id := 1, user_id := 7, type := "alert", channel := "email", subject := some "hello"
    message := "body", status := "sent", created_at := 0, sent_at := some 10 }

/-- A one-row table holding the already-sent record. -/
def exSentStore : Store :=
  { rows := [exSentRecord], nextId := 2 }

/-- A pending record whose channel "pager" is outside the known set. -/
def exPagerRecord : NotificationRecord :=
  { id := 1, user_id := 7, type := "alert", channel := "pager", subject := none
    message := "body", status := "pending", created_at := 0, sent_at := none }

/-- A one-row table holding the pager record. -/
def exPagerStore : Store :=
  { rows := [exPagerRecord], nextId := 2 }

/-- A fully valid admission request. -/
def exValidReq : CreateRequest :=
  { user_id := some 1, type := some "welcome", channel := some "email"
    subject := none, message := some "hi" }

/-- An admission request with the unknown channel "pager" and every
required field truthy. -/
def exPagerReq : CreateRequest :=
  { user_id := some 1, type := some "alert", channel := some "pager"
    subject := none, message := some "body" }

/-- An admission request whose user_id is the well-formed but falsy
integer 0. -/
def exFalsyReq : CreateRequest :=
  { user_id := some 0, type := some "alert", channel := some "email"
    subject := none, message := some "body" }

/-- C1, counterexample: with the already-sent record loaded from the
queue, one dispatcher cycle does not skip: it calls the sender and
rewrites the row, so the conjunction of no-sender-call and
unchanged-store claimed by C1 is false at this input. -/
theorem dispatch_resends_sent_record_cex :
    ¬ ((dispatchCycle exSentStore [1] 20).senderCalls = [] ∧
       (dispatchCycle exSentStore [1] 20).store = exSentStore) := by
  decide

/-- C1, amended: processQueue has no status guard at all. For every
dequeued id whose record is found, including a record already "sent" or
"failed", the cycle invokes the sender on it and re-marks the row sent
with a fresh sent_at. -/
theorem dispatch_no_status_guard (s : Store) (q : Queue) (id : Nat) (q1 : Queue)
    (r : NotificationRecord) (now : Nat)
    (hpop : brPop q = (some id, q1)) (hfind : findRecord s id = some r)
    (_hdone : r.status = "sent" ∨ r.status = "failed") :
    dispatchCycle s q now =
      { store := markSentById s id now, queue := q1, senderCalls := [r] } := by
  simp only [dispatchCycle, hpop, hfind]

/-- Witness for C1 amended at the already-sent record. -/
theorem dispatch_no_status_guard_witness :
    dispatchCycle exSentStore [1] 20 =
      { store := markSentById exSentStore 1 20, queue := [], senderCalls := [exSentRecord] } :=
  dispatch_no_status_guard exSentStore [1] 1 [] exSentRecord 20 (by decide) (by decide)
    (Or.inl (by decide))

/-- C2, counterexample: the unknown channel "pager" produces no sender
branch at all, yet the cycle still marks the record "sent", never
"failed" — so the claim that an unknown channel never yields status
"sent" is false at this input. -/
theorem unknown_channel_marked_sent_cex :
    sendNotification exPagerRecord = none ∧
    (dispatchCycle exPagerStore [1] 5).store.rows =
      [{ exPagerRecord with status := "sent", sent_at := some 5 }] := by
  decide

/-- C2, amended: the dispatcher marks every loaded record "sent"
regardless of channel or sender outcome; sendNotification cannot fail
and an unknown channel is a silent no-op, and no markFailed or status
"failed" path exists in the cycle. -/
theorem dispatch_marks_sent_unconditionally (s : Store) (q : Queue) (id : Nat)
    (q1 : Queue) (r : NotificationRecord) (now : Nat)
    (hpop : brPop q = (some id, q1)) (hfind : findRecord s id = some r) :
    (dispatchCycle s q now).store = markSentById s id now ∧
    (validChannel (some r.channel) = false → sendNotification r = none) := by
  constructor
  · simp only [dispatchCycle, hpop, hfind]
  · intro h
    have h1 : r.channel ≠ "email" := by
      intro he; simp [validChannel, he] at h
    have h2 : r.channel ≠ "slack" := by
      intro he; simp [validChannel, he] at h
    have h3 : r.channel ≠ "telegram" := by
      intro he; simp [validChannel, he] at h
    simp [sendNotification, h1, h2, h3]

/-- Witness for C2 amended at the pager record. -/
theorem dispatch_marks_sent_unconditionally_witness :
    (dispatchCycle exPagerStore [1] 5).store = markSentById exPagerStore 1 5 ∧
    (validChannel (some exPagerRecord.channel) = false →
      sendNotification exPagerRecord = none) :=
  dispatch_marks_sent_unconditionally exPagerStore [1] 1 [] exPagerRecord 5
    (by decide) (by decide)

/-- C9: when the dequeued id has no row in the table, the cycle returns
normally with the table unchanged, the queue exactly the popped
remainder (nothing re-enqueued) and no sender invocation, so the loop
simply continues. -/
theorem dispatch_missing_record_skips (s : Store) (q : Queue) (id : Nat)
    (q1 : Queue) (now : Nat)
    (hpop : brPop q = (some id, q1)) (hmiss : findRecord s id = none) :
    dispatchCycle s q now = { store := s, queue := q1, senderCalls := [] } := by
  simp only [dispatchCycle, hpop, hmiss]

/-- Witness for C9: a stale id 5 against the empty table. -/
theorem dispatch_missing_record_skips_witness :
    dispatchCycle { rows := [], nextId := 1 } [5] 3 =
      { store := { rows := [], nextId := 1 }, queue := [], senderCalls := [] } :=
  dispatch_missing_record_skips { rows := [], nextId := 1 } [5] 5 [] 3
    (by decide) (by decide)

/-- C6: an admission request with all required fields truthy but a
channel outside the allowed set is answered with the invalid-channel
validation error, and neither the table nor the queue changes. -/
theorem invalid_channel_rejected (s : Store) (q : Queue) (req : CreateRequest)
    (now : Nat) (iOk eOk : Bool)
    (hreq : requiredPresent req = true) (hch : validChannel req.channel = false) :
    postNotification s q req now iOk eOk =
      (s, q, Response.badRequest "invalid channel") := by
  unfold postNotification
  rw [hreq, hch]
  simp

/-- Witness for C6 at the pager request. -/
theorem invalid_channel_rejected_witness :
    postNotification { rows := [], nextId := 1 } [] exPagerReq 0 true true =
      ({ rows := [], nextId := 1 }, [], Response.badRequest "invalid channel") :=
  invalid_channel_rejected { rows := [], nextId := 1 } [] exPagerReq 0 true true
    (by decide) (by decide)

/-- C10: a required field that is present but falsy — user_id 0, or an
empty type, channel or message string — is rejected by the
missing-required-fields guard before any insert, with the state
untouched, even though 0 satisfies the INTEGER NOT NULL schema column. -/
theorem falsy_required_fields_rejected (s : Store) (q : Queue) (now : Nat)
    (iOk eOk : Bool) (req : CreateRequest)
    (h : req.user_id = some 0 ∨ req.type = some "" ∨ req.channel = some "" ∨
      req.message = some "") :
    postNotification s q req now iOk eOk =
      (s, q, Response.badRequest "missing required fields") ∧
    schemaAcceptsUserId (some 0) = true := by
  refine ⟨?_, rfl⟩
  have hreq : requiredPresent req = false := by
    rcases h with h | h | h | h <;> simp [requiredPresent, truthyInt, truthyStr, h]
  unfold postNotification
  rw [hreq]
  simp

/-- Witness for C10 at the user_id 0 request. -/
theorem falsy_required_fields_rejected_witness :
    postNotification { rows := [], nextId := 1 } [] exFalsyReq 0 true true =
      ({ rows := [], nextId := 1 }, [], Response.badRequest "missing required fields") ∧
    schemaAcceptsUserId (some 0) = true :=
  falsy_required_fields_rejected { rows := [], nextId := 1 } [] 0 true true exFalsyReq
    (Or.inl rfl)

/-- C3: the enqueue-after-insert ordering of the admission handler.
First, when the INSERT throws, both the table and the queue are exactly
as before, so nothing was enqueued. Second, when the INSERT commits and
the lPush then throws, the queue is unchanged while the freshly built
pending row is in the table. Third, any id present in the resulting
queue was either already queued or belongs to a row of the resulting
table whose status is "pending", so an id is only ever enqueued after
its record exists. -/
theorem enqueue_after_insert :
    (∀ (s : Store) (q : Queue) (req : CreateRequest) (now : Nat) (eOk : Bool),
      (postNotification s q req now false eOk).1 = s ∧
      (postNotification s q req now false eOk).2.1 = q) ∧
    (∀ (s : Store) (q : Queue) (req : CreateRequest) (now : Nat),
      requiredPresent req = true → validChannel req.channel = true →
      (postNotification s q req now true false).2.1 = q ∧
      mkPendingRecord s.nextId req now ∈ (postNotification s q req now true false).1.rows ∧
      (mkPendingRecord s.nextId req now).status = "pending") ∧
    (∀ (s : Store) (q : Queue) (req : CreateRequest) (now : Nat) (iOk eOk : Bool)
      (id : Nat),
      id ∈ (postNotification s q req now iOk eOk).2.1 →
      id ∈ q ∨ ∃ r ∈ (postNotification s q req now iOk eOk).1.rows,
        r.id = id ∧ r.status = "pending") := by
  refine ⟨?_, ?_, ?_⟩
  · intro s q req now eOk
    unfold postNotification
    split_ifs <;> first | exact ⟨rfl, rfl⟩ | simp_all
  · intro s q req now hreq hch
    unfold postNotification
    rw [hreq, hch]
    simp [insertRecord, mkPendingRecord]
  · intro s q req now iOk eOk id hid
    unfold postNotification at hid ⊢
    split_ifs at hid ⊢ with h1 h2 h3 h4
    · rcases List.mem_cons.mp hid with h | h
      · right
        exact ⟨mkPendingRecord s.nextId req now, by simp [insertRecord], h.symm, rfl⟩
      · exact Or.inl h
    all_goals exact Or.inl hid

/-- Witness for C3, part two, at the empty table with the enqueue
throwing after a committed insert. -/
theorem enqueue_after_insert_witness :
    (postNotification { rows := [], nextId := 1 } [] exValidReq 0 true false).2.1 = [] ∧
    mkPendingRecord 1 exValidReq 0 ∈
      (postNotification { rows := [], nextId := 1 } [] exValidReq 0 true false).1.rows ∧
    (mkPendingRecord 1 exValidReq 0).status = "pending" :=
  enqueue_after_insert.2.1 { rows := [], nextId := 1 } [] exValidReq 0
    (by decide) (by decide)

/-- A table of n distinct pending email rows, used to exhibit an
uncapped list response. -/
def manyRecords (n : Nat) : List NotificationRecord :=
  (List.range n).map (fun i =>
    { id := i + 1, user_id := 1, type := "alert", channel := "email", subject := none
      message := "body", status := "pending", created_at := i, sent_at := none })

/-- A table holding 1001 rows. -/
def bigStore : Store :=
  { rows := manyRecords 1001, nextId := 1002 }

/-- C4, counterexample: a request with limit 2000 against a 1001-row
table returns 1001 records, so the returned count exceeds the sane
maximum of 1000 that the claim says is enforced. -/
theorem list_limit_uncapped_cex :
    1000 < (listNotifications bigStore none (some 2000) none).length := by
  simp [listNotifications, effectiveLimit, effectiveOffset, bigStore, manyRecords]

/-- C4, amended: the effective page size defaults to 100 when the limit
parameter is absent (so a default request never returns more than 100
rows), and an explicit falsy limit of 0 also falls back to 100, but any
other requested limit is used as-is with no upper cap. -/
theorem list_limit_default_and_uncapped :
    (∀ (s : Store) (off : Option Nat),
      (listNotifications s none none off).length ≤ 100) ∧
    effectiveLimit none = 100 ∧ effectiveLimit (some 0) = 100 ∧
    (∀ n : Nat, n ≠ 0 → effectiveLimit (some n) = n) := by
  refine ⟨?_, rfl, rfl, ?_⟩
  · intro s off
    simp only [listNotifications, effectiveLimit]
    exact List.length_take_le _ _
  · intro n hn
    simp [effectiveLimit, hn]

/-- Witness for C4 amended: the default on the big table stays within
100 and the requested limit 2000 is used uncapped. -/
theorem list_limit_default_and_uncapped_witness :
    (listNotifications bigStore none none none).length ≤ 100 ∧
    effectiveLimit (some 2000) = 2000 :=
  ⟨list_limit_default_and_uncapped.1 bigStore none,
    list_limit_default_and_uncapped.2.2.2 2000 (by decide)⟩

/-- C5: on a well-formed table, a valid admission request with both
infrastructure calls succeeding creates exactly one new row with status
"pending" and a NULL sent_at, whose id differs from every previously
issued id, returns it, enqueues its id, and preserves well-formedness
of the id counter. -/
theorem create_pending_fresh_id (s : Store) (q : Queue) (req : CreateRequest)
    (now : Nat) (hWF : StoreWF s)
    (hreq : requiredPresent req = true) (hch : validChannel req.channel = true) :
    ∃ rec : NotificationRecord,
      postNotification s q req now true true =
        (insertRecord s rec, lPush q rec.id, Response.ok rec) ∧
      rec.status = "pending" ∧ rec.sent_at = none ∧
      (∀ r ∈ s.rows, r.id ≠ rec.id) ∧
      StoreWF (insertRecord s rec) := by
  refine ⟨mkPendingRecord s.nextId req now, ?_, rfl, rfl, ?_, ?_⟩
  · unfold postNotification
    rw [hreq, hch]
    simp
  · intro r hr
    have h1 := hWF r hr
    have h2 : (mkPendingRecord s.nextId req now).id = s.nextId := rfl
    omega
  · intro r hr
    rcases List.mem_append.mp hr with h | h
    · exact Nat.lt_succ_of_lt (hWF r h)
    · have h2 : r = mkPendingRecord s.nextId req now := by simpa using h
      subst h2
      exact Nat.lt_succ_self _

/-- Witness for C5 on the one-row table. -/
theorem create_pending_fresh_id_witness :
    ∃ rec : NotificationRecord,
      postNotification exSentStore [] exValidReq 3 true true =
        (insertRecord exSentStore rec, lPush [] rec.id, Response.ok rec) ∧
      rec.status = "pending" ∧ rec.sent_at = none ∧
      (∀ r ∈ exSentStore.rows, r.id ≠ rec.id) ∧
      StoreWF (insertRecord exSentStore rec) :=
  create_pending_fresh_id exSentStore [] exValidReq 3
    (show ∀ r ∈ exSentStore.rows, r.id < exSentStore.nextId by decide)
    (by decide) (by decide)

/-- Enqueueing a batch of ids leaves them on the left of the list in
reversed production order. -/
theorem enqueueAll_eq_reverse_append (ids : List Nat) (q : Queue) :
    enqueueAll q ids = ids.reverse ++ q := by
  induction ids generalizing q with
  | nil => simp [enqueueAll]
  | cons x xs ih =>
    show enqueueAll (x :: q) xs = (x :: xs).reverse ++ q
    rw [ih]
    simp

/-- C7: the lPush producer end and the brPop consumer end give FIFO
order for a single producer. On the empty queue brPop returns the
timeout sentinel; after a producer enqueues the sequence x :: xs onto
the empty queue, brPop returns x, the oldest enqueued id, leaving
exactly the queue produced by enqueueing xs. -/
theorem queue_fifo_single_producer :
    brPop ([] : Queue) = (none, ([] : Queue)) ∧
    ∀ (x : Nat) (xs : List Nat),
      brPop (enqueueAll [] (x :: xs)) = (some x, enqueueAll [] xs) := by
  refine ⟨rfl, ?_⟩
  intro x xs
  rw [enqueueAll_eq_reverse_append, enqueueAll_eq_reverse_append]
  simp [brPop]

/-- Every admission call preserves the sent_at-iff-sent invariant: the
error paths leave the table unchanged and the insert paths add a row
with status "pending" and sent_at NULL. -/
theorem sentAtInv_post (s : Store) (q : Queue) (req : CreateRequest) (now : Nat)
    (iOk eOk : Bool) (h : SentAtInv s) :
    SentAtInv (postNotification s q req now iOk eOk).1 := by
  unfold postNotification
  have hins : SentAtInv (insertRecord s (mkPendingRecord s.nextId req now)) := by
    intro r hr
    rcases List.mem_append.mp hr with hm | hm
    · exact h r hm
    · have h2 : r = mkPendingRecord s.nextId req now := by simpa using hm
      subst h2
      simp [mkPendingRecord]
  split_ifs <;> first | exact h | exact hins

/-- Every dispatcher iteration preserves the sent_at-iff-sent invariant:
the skip paths leave the table unchanged and the mark path writes
status "sent" together with a non-null sent_at. -/
theorem sentAtInv_dispatch (s : Store) (q : Queue) (now : Nat)
    (h : SentAtInv s) : SentAtInv (dispatchCycle s q now).store := by
  rcases hq : brPop q with ⟨o, q1⟩
  cases o with
  | none => simpa [dispatchCycle, hq] using h
  | some id =>
    cases hf : findRecord s id with
    | none => simpa [dispatchCycle, hq, hf] using h
    | some notif =>
      simp only [dispatchCycle, hq, hf]
      intro r hr
      simp only [markSentById, List.mem_map] at hr
      obtain ⟨r0, hr0, rfl⟩ := hr
      by_cases hid : r0.id = id
      · simp [hid]
      · simpa [hid] using h r0 hr0

/-- C8: in every state reachable from the fresh service through
admission calls and dispatcher iterations, a row has a non-null sent_at
exactly when its status is "sent". -/
theorem reachable_sent_at_iff_sent (s : Store) (q : Queue)
    (h : Reachable s q) : SentAtInv s := by
  induction h with
  | init => intro r hr; simp at hr
  | post req now iOk eOk _ ih => exact sentAtInv_post _ _ _ _ _ _ ih
  | dispatch now _ ih => exact sentAtInv_dispatch _ _ _ ih

/-- Witness for C8 at the state reached by one successful admission
from the fresh service. -/
theorem reachable_sent_at_iff_sent_witness :
    SentAtInv (postNotification { rows := [], nextId := 1 } [] exValidReq 0 true true).1 :=
  reachable_sent_at_iff_sent _ _
    (Reachable.post exValidReq 0 true true Reachable.init)

end Notifications
